import Mathlib

/-!
Shallow embedding of `src/examples/netfilter/netfilter.c` (the netfilter
example of the Divert repository): a traffic filter that blocks matching
packets by synthesizing TCP RST / ICMP(v6) destination-unreachable
responses.

Headers and numeric constants declared in `divert.h` and `winsock2.h` are
not part of `src/`; where a definition comes from those declarations it is
modelled from the spec (section 4.1 of the spec gives the header layouts)
and its doc comment says so.  All multi-byte wire fields are stored in
network byte order, exactly as the C structs hold them; `htons`/`ntohs`/
`htonl`/`ntohl` are the byte-swapping re-encoders.  Machine integers are
`Nat` with explicit reduction `% 2 ^ w` where C overflow matters.
-/

namespace Netfilter

/-- Swap of the two bytes of a 16-bit value (the value is first reduced
mod 2^16, as the C cast to `UINT16` does). -/
def bswap16 (n : Nat) : Nat :=
  (n % 65536 % 256) * 256 + n % 65536 / 256

/-- Reversal of the four bytes of a 32-bit value (the value is first
reduced mod 2^32, as the C cast to `UINT32` does). -/
def bswap32 (n : Nat) : Nat :=
  (n % 4294967296 % 256) * 16777216
    + (n % 4294967296 / 256 % 256) * 65536
    + (n % 4294967296 / 65536 % 256) * 256
    + n % 4294967296 / 16777216

/-- Modelled from the spec: host-to-network re-encoding of a 16-bit value
(`htons` of winsock, external to `src/`). -/
def htons (n : Nat) : Nat := bswap16 n

/-- Modelled from the spec: network-to-host decoding of a 16-bit value
(`ntohs` of winsock, external to `src/`). -/
def ntohs (n : Nat) : Nat := bswap16 n

/-- Modelled from the spec: host-to-network re-encoding of a 32-bit value
(`htonl` of winsock, external to `src/`). -/
def htonl (n : Nat) : Nat := bswap32 n

/-- Modelled from the spec: network-to-host decoding of a 32-bit value
(`ntohl` of winsock, external to `src/`). -/
def ntohl (n : Nat) : Nat := bswap32 n

/-- MAXBUF of netfilter.c: size of both the filter buffer and the packet
buffer. -/
def MAXBUF : Nat := 2048

/-- Modelled from the spec: the winsock protocol number for TCP. -/
def IPPROTO_TCP : Nat := 6

/-- Modelled from the spec: the winsock protocol number for ICMP. -/
def IPPROTO_ICMP : Nat := 1

/-- Modelled from the spec: the winsock protocol number for ICMPv6. -/
def IPPROTO_ICMPV6 : Nat := 58

/-- Modelled from the spec (glossary: direction is inbound or outbound).
The diversion envelope's direction field is one bit; we embed it as a
`Bool`, `false` standing for the numeric value 0.  The constant
`DIVERT_PACKET_DIRECTION_OUTBOUND` of `divert.h` is not in `src/`; the
theorems below do not depend on which of the two values it denotes. -/
def DIVERT_PACKET_DIRECTION_OUTBOUND : Bool := false

/-- Modelled from the spec: the diversion envelope (`DIVERT_PACKET` of
`divert.h`): interface index, sub-interface index, direction. -/
structure DIVERT_PACKET where
  IfIdx : Nat
  SubIfIdx : Nat
  Direction : Bool
  deriving Repr, DecidableEq

/-- Modelled from the spec: the 20-byte IPv4 header (`DIVERT_IPHDR` of
`divert.h`): version/header-length nibbles, type of service, total length,
identifier, fragment word, TTL, protocol, checksum, addresses.  Multi-byte
fields hold network-order values; addresses are kept as the 32-bit wire
words they are in the struct. -/
structure DIVERT_IPHDR where
  HdrLength : Nat      -- 4-bit: header length in 32-bit words
  Version : Nat        -- 4-bit
  TOS : Nat
  Length : Nat         -- 16-bit, network order
  Id : Nat             -- 16-bit, network order
  FragOff0 : Nat
  TTL : Nat
  Protocol : Nat
  Checksum : Nat
  SrcAddr : Nat        -- 32-bit wire word
  DstAddr : Nat
  deriving Repr, DecidableEq

/-- Modelled from the spec: the 40-byte IPv6 header (`DIVERT_IPV6HDR` of
`divert.h`).  The two 128-bit addresses are kept as single `Nat`s (the C
code only ever block-copies them whole). -/
structure DIVERT_IPV6HDR where
  TrafficClass0 : Nat
  Version : Nat        -- 4-bit
  FlowLabel : Nat
  Length : Nat         -- 16-bit payload length, network order
  NextHdr : Nat
  HopLimit : Nat
  SrcAddr : Nat        -- 128-bit
  DstAddr : Nat
  deriving Repr, DecidableEq

/-- Modelled from the spec: the 20-byte TCP header (`DIVERT_TCPHDR` of
`divert.h`).  One-bit flag fields are embedded as `Bool` (`true` = 1). -/
structure DIVERT_TCPHDR where
  SrcPort : Nat        -- 16-bit, network order
  DstPort : Nat
  SeqNum : Nat         -- 32-bit, network order
  AckNum : Nat
  Reserved1 : Nat
  HdrLength : Nat      -- 4-bit: header length in 32-bit words
  Fin : Bool
  Syn : Bool
  Rst : Bool
  Psh : Bool
  Ack : Bool
  Urg : Bool
  Reserved2 : Nat
  Window : Nat
  Checksum : Nat
  UrgPtr : Nat
  deriving Repr, DecidableEq

/-- Modelled from the spec: the 8-byte UDP header (`DIVERT_UDPHDR` of
`divert.h`). -/
structure DIVERT_UDPHDR where
  SrcPort : Nat
  DstPort : Nat
  Length : Nat
  Checksum : Nat
  deriving Repr, DecidableEq

/-- Modelled from the spec: the ICMP header (`DIVERT_ICMPHDR` of
`divert.h`): type, code, checksum, 32-bit rest-of-header word. -/
structure DIVERT_ICMPHDR where
  «Type» : Nat
  Code : Nat
  Checksum : Nat
  Body : Nat
  deriving Repr, DecidableEq

/-- Modelled from the spec: the ICMPv6 header (`DIVERT_ICMPV6HDR` of
`divert.h`): type, code, checksum, 32-bit rest-of-header word. -/
structure DIVERT_ICMPV6HDR where
  «Type» : Nat
  Code : Nat
  Checksum : Nat
  Body : Nat
  deriving Repr, DecidableEq

/-- Modelled from the spec: byte size of the diversion envelope.  The spec
gives no number; every theorem below in which this constant occurs is
insensitive to it (it cancels between a sent length and a header-relative
length). -/
def sizeofDIVERT_PACKET : Nat := 12

/-- Modelled from the spec: the IPv4 header is 20 bytes. -/
def sizeofDIVERT_IPHDR : Nat := 20

/-- Modelled from the spec: the IPv6 header is 40 bytes. -/
def sizeofDIVERT_IPV6HDR : Nat := 40

/-- Modelled from the spec: the TCP header is 20 bytes. -/
def sizeofDIVERT_TCPHDR : Nat := 20

/-- Modelled from the spec: the ICMP header (type, code, checksum,
rest-of-header word) is 8 bytes. -/
def sizeofDIVERT_ICMPHDR : Nat := 8

/-- Modelled from the spec: the ICMPv6 header (type, code, checksum,
rest-of-header word) is 8 bytes. -/
def sizeofDIVERT_ICMPV6HDR : Nat := 8

/-- PACKET of netfilter.c: diversion envelope followed by an IPv4
header. -/
structure PACKET where
  divert : DIVERT_PACKET
  ip : DIVERT_IPHDR
  deriving Repr, DecidableEq

/-- PACKETV6 of netfilter.c: diversion envelope followed by an IPv6
header. -/
structure PACKETV6 where
  divert : DIVERT_PACKET
  ipv6 : DIVERT_IPV6HDR
  deriving Repr, DecidableEq

/-- TCPPACKET of netfilter.c. -/
structure TCPPACKET where
  header : PACKET
  tcp : DIVERT_TCPHDR
  deriving Repr, DecidableEq

/-- TCPV6PACKET of netfilter.c. -/
structure TCPV6PACKET where
  header : PACKETV6
  tcp : DIVERT_TCPHDR
  deriving Repr, DecidableEq

/-- ICMPPACKET of netfilter.c; `data` is the flexible trailing region
(bytes as `Nat`s). -/
structure ICMPPACKET where
  header : PACKET
  icmp : DIVERT_ICMPHDR
  data : List Nat
  deriving Repr, DecidableEq

/-- ICMPV6PACKET of netfilter.c; `data` is the flexible trailing region
(bytes as `Nat`s). -/
structure ICMPV6PACKET where
  header : PACKETV6
  icmpv6 : DIVERT_ICMPV6HDR
  data : List Nat
  deriving Repr, DecidableEq

/-- Byte size of the fixed part of ICMPPACKET (`sizeof(ICMPPACKET)` in
netfilter.c: envelope + IPv4 header + ICMP header; the flexible array
member contributes nothing). -/
def sizeofICMPPACKET : Nat :=
  sizeofDIVERT_PACKET + sizeofDIVERT_IPHDR + sizeofDIVERT_ICMPHDR

/-- Byte size of the fixed part of ICMPV6PACKET (`sizeof(ICMPV6PACKET)` in
netfilter.c: envelope + IPv6 header + ICMPv6 header). -/
def sizeofICMPV6PACKET : Nat :=
  sizeofDIVERT_PACKET + sizeofDIVERT_IPV6HDR + sizeofDIVERT_ICMPV6HDR

/-- Byte size of TCPPACKET (`sizeof(TCPPACKET)` in netfilter.c). -/
def sizeofTCPPACKET : Nat :=
  sizeofDIVERT_PACKET + sizeofDIVERT_IPHDR + sizeofDIVERT_TCPHDR

/-- Byte size of TCPV6PACKET (`sizeof(TCPV6PACKET)` in netfilter.c). -/
def sizeofTCPV6PACKET : Nat :=
  sizeofDIVERT_PACKET + sizeofDIVERT_IPV6HDR + sizeofDIVERT_TCPHDR

/-- Trailing-data capacity of the `dnr0` buffer of netfilter.c
(line 117): the buffer is `sizeof(ICMPPACKET) + 0x0F*sizeof(UINT32) + 8 + 1`
bytes, so the room past the fixed part is `0x0F*4 + 8 + 1`. -/
def dnrDataCapacity : Nat := 0x0F * 4 + 8 + 1

/-- The all-zero diversion envelope (`memset 0`). -/
def zeroDIVERT_PACKET : DIVERT_PACKET :=
  { IfIdx := 0, SubIfIdx := 0, Direction := false }

/-- The all-zero IPv4 header (`memset 0`). -/
def zeroDIVERT_IPHDR : DIVERT_IPHDR :=
  { HdrLength := 0, Version := 0, TOS := 0, Length := 0, Id := 0
    FragOff0 := 0, TTL := 0, Protocol := 0, Checksum := 0
    SrcAddr := 0, DstAddr := 0 }

/-- The all-zero IPv6 header (`memset 0`). -/
def zeroDIVERT_IPV6HDR : DIVERT_IPV6HDR :=
  { TrafficClass0 := 0, Version := 0, FlowLabel := 0, Length := 0
    NextHdr := 0, HopLimit := 0, SrcAddr := 0, DstAddr := 0 }

/-- The all-zero TCP header (`memset 0`). -/
def zeroDIVERT_TCPHDR : DIVERT_TCPHDR :=
  { SrcPort := 0, DstPort := 0, SeqNum := 0, AckNum := 0, Reserved1 := 0
    HdrLength := 0, Fin := false, Syn := false, Rst := false, Psh := false
    Ack := false, Urg := false, Reserved2 := 0, Window := 0, Checksum := 0
    UrgPtr := 0 }

/-- The all-zero ICMP header (`memset 0`). -/
def zeroDIVERT_ICMPHDR : DIVERT_ICMPHDR :=
  { «Type» := 0, Code := 0, Checksum := 0, Body := 0 }

/-- The all-zero ICMPv6 header (`memset 0`). -/
def zeroDIVERT_ICMPV6HDR : DIVERT_ICMPV6HDR :=
  { «Type» := 0, Code := 0, Checksum := 0, Body := 0 }

/-- PacketIpInit of netfilter.c: zero the PACKET, then set version 4,
header length 5 words, identifier `ntohs(0xDEAD)`, TTL 64. -/
def PacketIpInit : PACKET :=
  { divert := zeroDIVERT_PACKET
    ip := { zeroDIVERT_IPHDR with
              Version := 4
              HdrLength := sizeofDIVERT_IPHDR / 4
              Id := ntohs 0xDEAD
              TTL := 64 } }

/-- PacketIpTcpInit of netfilter.c: zero the TCPPACKET, run PacketIpInit,
set the IPv4 total length to `htons(sizeof(TCPPACKET) -
sizeof(DIVERT_PACKET))`, protocol TCP, TCP header length 5 words. -/
def PacketIpTcpInit : TCPPACKET :=
  { header := { PacketIpInit with
                  ip := { PacketIpInit.ip with
                            Length := htons (sizeofTCPPACKET - sizeofDIVERT_PACKET)
                            Protocol := IPPROTO_TCP } }
    tcp := { zeroDIVERT_TCPHDR with HdrLength := sizeofDIVERT_TCPHDR / 4 } }

/-- PacketIpIcmpInit of netfilter.c: zero the ICMPPACKET, run
PacketIpInit, set protocol ICMP. -/
def PacketIpIcmpInit : ICMPPACKET :=
  { header := { PacketIpInit with
                  ip := { PacketIpInit.ip with Protocol := IPPROTO_ICMP } }
    icmp := zeroDIVERT_ICMPHDR
    data := [] }

/-- PacketIpv6Init of netfilter.c: zero the PACKETV6, then set version 6
and hop limit 64. -/
def PacketIpv6Init : PACKETV6 :=
  { divert := zeroDIVERT_PACKET
    ipv6 := { zeroDIVERT_IPV6HDR with Version := 6, HopLimit := 64 } }

/-- PacketIpv6TcpInit of netfilter.c: zero the TCPV6PACKET, run
PacketIpv6Init, set the IPv6 payload length to `htons(sizeof(DIVERT_TCPHDR))`,
next header TCP, TCP header length 5 words. -/
def PacketIpv6TcpInit : TCPV6PACKET :=
  { header := { PacketIpv6Init with
                  ipv6 := { PacketIpv6Init.ipv6 with
                              Length := htons sizeofDIVERT_TCPHDR
                              NextHdr := IPPROTO_TCP } }
    tcp := { zeroDIVERT_TCPHDR with HdrLength := sizeofDIVERT_TCPHDR / 4 } }

/-- PacketIpv6Icmpv6Init of netfilter.c: zero the ICMPV6PACKET, run
PacketIpv6Init, set next header ICMPv6. -/
def PacketIpv6Icmpv6Init : ICMPV6PACKET :=
  { header := { PacketIpv6Init with
                  ipv6 := { PacketIpv6Init.ipv6 with NextHdr := IPPROTO_ICMPV6 } }
    icmpv6 := zeroDIVERT_ICMPV6HDR
    data := [] }

/-- Modelled from the spec: result of the Classifier
(`DivertHelperParse`, external to `src/`) on one intercepted packet,
together with the packet's diversion envelope, which the loop reads
through `ppacket`.  `ipBytes` (resp. `ipv6Bytes`) are the raw bytes of the
received buffer starting at the IPv4 (resp. IPv6) header, the source
region of the two `memcpy` calls. -/
structure ClassifiedPacket where
  IfIdx : Nat
  SubIfIdx : Nat
  Direction : Bool
  ip : Option DIVERT_IPHDR
  ipv6 : Option DIVERT_IPV6HDR
  icmp : Option DIVERT_ICMPHDR
  icmpv6 : Option DIVERT_ICMPV6HDR
  tcp : Option DIVERT_TCPHDR
  udp : Option DIVERT_UDPHDR
  payload_len : Nat
  ipBytes : List Nat
  ipv6Bytes : List Nat
  deriving Repr, DecidableEq

/-- Modelled from the spec: the external Checksum Finalizer
(`DivertHelperCalcChecksums`) writes, in place, only the checksum fields
of an assembled buffer.  The oracle supplies the values written for each
of the four response buffers; everything proved below holds for every
oracle. -/
structure ChecksumOracle where
  resetIpChk : TCPPACKET → Nat
  resetTcpChk : TCPPACKET → Nat
  resetv6TcpChk : TCPV6PACKET → Nat
  dnrIpChk : ICMPPACKET → Nat
  dnrIcmpChk : ICMPPACKET → Nat
  dnrv6Icmpv6Chk : ICMPV6PACKET → Nat

/-- Checksum finalization of the IPv4 TCP reset (writes the IPv4 and TCP
checksum fields only). -/
def finalizeReset (o : ChecksumOracle) (x : TCPPACKET) : TCPPACKET :=
  { x with
      header.ip.Checksum := o.resetIpChk x
      tcp.Checksum := o.resetTcpChk x }

/-- Checksum finalization of the IPv6 TCP reset (writes the TCP checksum
field only; IPv6 has no header checksum). -/
def finalizeResetV6 (o : ChecksumOracle) (x : TCPV6PACKET) : TCPV6PACKET :=
  { x with tcp.Checksum := o.resetv6TcpChk x }

/-- Checksum finalization of the ICMP unreachable response (writes the
IPv4 and ICMP checksum fields only). -/
def finalizeDnr (o : ChecksumOracle) (x : ICMPPACKET) : ICMPPACKET :=
  { x with
      header.ip.Checksum := o.dnrIpChk x
      icmp.Checksum := o.dnrIcmpChk x }

/-- Checksum finalization of the ICMPv6 unreachable response (writes the
ICMPv6 checksum field only). -/
def finalizeDnrV6 (o : ChecksumOracle) (x : ICMPV6PACKET) : ICMPV6PACKET :=
  { x with icmpv6.Checksum := o.dnrv6Icmpv6Chk x }

/-- Lines 269-281 of netfilter.c: fill the variable fields of the `reset`
template from the intercepted packet (IPv4 branch of the TCP case).
Arithmetic on sequence numbers is 32-bit (`htonl` reduces mod 2^32). -/
def synthResetV4 (reset : TCPPACKET) (p : ClassifiedPacket)
    (ip_header : DIVERT_IPHDR) (tcp_header : DIVERT_TCPHDR) : TCPPACKET :=
  { reset with
      header.divert.IfIdx := p.IfIdx
      header.divert.SubIfIdx := p.SubIfIdx
      header.divert.Direction := !p.Direction
      header.ip.SrcAddr := ip_header.DstAddr
      header.ip.DstAddr := ip_header.SrcAddr
      tcp.SrcPort := tcp_header.DstPort
      tcp.DstPort := tcp_header.SrcPort
      tcp.SeqNum := if tcp_header.Ack then tcp_header.AckNum else 0
      tcp.AckNum :=
        if tcp_header.Syn then htonl (ntohl tcp_header.SeqNum + 1)
        else htonl (ntohl tcp_header.SeqNum + p.payload_len) }

/-- Lines 295-309 of netfilter.c: fill the variable fields of the
`resetv6` template (IPv6 branch of the TCP case).  The two `memcpy`
calls on the 128-bit addresses are whole-field assignments. -/
def synthResetV6 (resetv6 : TCPV6PACKET) (p : ClassifiedPacket)
    (ipv6_header : DIVERT_IPV6HDR) (tcp_header : DIVERT_TCPHDR) :
    TCPV6PACKET :=
  { resetv6 with
      header.divert.IfIdx := p.IfIdx
      header.divert.SubIfIdx := p.SubIfIdx
      header.divert.Direction := !p.Direction
      header.ipv6.SrcAddr := ipv6_header.DstAddr
      header.ipv6.DstAddr := ipv6_header.SrcAddr
      tcp.SrcPort := tcp_header.DstPort
      tcp.DstPort := tcp_header.SrcPort
      tcp.SeqNum := if tcp_header.Ack then tcp_header.AckNum else 0
      tcp.AckNum :=
        if tcp_header.Syn then htonl (ntohl tcp_header.SeqNum + 1)
        else htonl (ntohl tcp_header.SeqNum + p.payload_len) }

/-- Line 331 of netfilter.c: `icmp_length` before the
`+= sizeof(ICMPPACKET)` update, i.e. the length of the embedded region:
original IPv4 header length in words times 4, plus 8. -/
def icmpEmbedLength (ip_header : DIVERT_IPHDR) : Nat :=
  ip_header.HdrLength * 4 + 8

/-- Line 333 of netfilter.c: the final `icmp_length`, the byte length
handed to checksum finalization and send. -/
def dnrSentLength (ip_header : DIVERT_IPHDR) : Nat :=
  icmpEmbedLength ip_header + sizeofICMPPACKET

/-- Lines 331-341 of netfilter.c: fill the variable fields of the `dnr`
template from the intercepted packet (IPv4 branch of the UDP case).  The
`memcpy` at line 332 copies `icmpEmbedLength` bytes starting at the
original IPv4 header into the trailing data region; the direction is
forced outbound; the IPv4 total length is recomputed from the final
`icmp_length`. -/
def synthDnrV4 (dnr : ICMPPACKET) (p : ClassifiedPacket)
    (ip_header : DIVERT_IPHDR) : ICMPPACKET :=
  { dnr with
      data := p.ipBytes.take (icmpEmbedLength ip_header)
      header.divert.IfIdx := p.IfIdx
      header.divert.SubIfIdx := p.SubIfIdx
      header.divert.Direction := DIVERT_PACKET_DIRECTION_OUTBOUND
      header.ip.Length := htons (dnrSentLength ip_header - sizeofDIVERT_PACKET)
      header.ip.SrcAddr := ip_header.DstAddr
      header.ip.DstAddr := ip_header.SrcAddr }

/-- Lines 353-354 of netfilter.c: `icmpv6_length` before the
`+= sizeof(ICMPV6PACKET)` update: the embedded region is a fixed
IPv6-header plus TCP-header sized block. -/
def icmpv6EmbedLength : Nat := sizeofDIVERT_IPV6HDR + sizeofDIVERT_TCPHDR

/-- Line 356 of netfilter.c: the final `icmpv6_length`, the byte length
handed to checksum finalization and send. -/
def dnrv6SentLength : Nat := icmpv6EmbedLength + sizeofICMPV6PACKET

/-- Lines 353-364 of netfilter.c: fill the variable fields of the `dnrv6`
template (IPv6 branch of the UDP case).  The direction is forced
outbound; the IPv6 payload-length field is NOT touched here (it keeps the
value set at line 154). -/
def synthDnrV6 (dnrv6 : ICMPV6PACKET) (p : ClassifiedPacket)
    (ipv6_header : DIVERT_IPV6HDR) : ICMPV6PACKET :=
  { dnrv6 with
      data := p.ipv6Bytes.take icmpv6EmbedLength
      header.divert.IfIdx := p.IfIdx
      header.divert.SubIfIdx := p.SubIfIdx
      header.divert.Direction := DIVERT_PACKET_DIRECTION_OUTBOUND
      header.ipv6.SrcAddr := ipv6_header.DstAddr
      header.ipv6.DstAddr := ipv6_header.SrcAddr }

/-- The four pre-fabricated response buffers of netfilter.c, the mutable
state of the main loop. -/
structure Templates where
  reset : TCPPACKET
  dnr : ICMPPACKET
  resetv6 : TCPV6PACKET
  dnrv6 : ICMPV6PACKET
  deriving Repr, DecidableEq

/-- Lines 144-157 of netfilter.c: the initialization of the four
templates before the main loop, including the post-init tweaks done in
`main` (RST/ACK flags, ICMP type 3 code 3, the line-154 IPv6 payload
length, ICMPv6 type 1 code 4). -/
def initTemplates : Templates :=
  { reset := { PacketIpTcpInit with tcp.Rst := true, tcp.Ack := true }
    dnr := { PacketIpIcmpInit with icmp.«Type» := 3, icmp.Code := 3 }
    resetv6 := { PacketIpv6TcpInit with tcp.Rst := true, tcp.Ack := true }
    dnrv6 := { PacketIpv6Icmpv6Init with
                 header.ipv6.Length := htons (sizeofDIVERT_ICMPV6HDR + 4 +
                   sizeofDIVERT_IPV6HDR + sizeofDIVERT_TCPHDR)
                 icmpv6.«Type» := 1
                 icmpv6.Code := 4 } }

/-- One iteration of the main loop (lines 190-374) on an already
classified packet: skip when neither network-layer header is present,
otherwise run the TCP branches and then the UDP branches, each mutating
its template in place (checksums finalized through the oracle).  Console
output and the send calls themselves have no effect on the templates. -/
def processPacket (o : ChecksumOracle) (t : Templates)
    (p : ClassifiedPacket) : Templates :=
  if p.ip.isNone && p.ipv6.isNone then t
  else
    let t1 :=
      match p.tcp with
      | none => t
      | some tcp_header =>
        let ta :=
          match p.ip with
          | none => t
          | some ip_header =>
            { t with reset :=
                finalizeReset o (synthResetV4 t.reset p ip_header tcp_header) }
        match p.ipv6 with
        | none => ta
        | some ipv6_header =>
          let r6 := finalizeResetV6 o
            (synthResetV6 ta.resetv6 p ipv6_header tcp_header)
          { ta with resetv6 := r6 }
    match p.udp with
    | none => t1
    | some _ =>
      let tb :=
        match p.ip with
        | none => t1
        | some ip_header =>
          { t1 with dnr := finalizeDnr o (synthDnrV4 t1.dnr p ip_header) }
      match p.ipv6 with
      | none => tb
      | some ipv6_header =>
        { tb with dnrv6 := finalizeDnrV6 o (synthDnrV6 tb.dnrv6 p ipv6_header) }

/-- The template state after the main loop has processed a sequence of
classified packets, starting from the freshly initialized templates. -/
def processPackets (o : ChecksumOracle) (ps : List ClassifiedPacket) :
    Templates :=
  ps.foldl (processPacket o) initTemplates

/-- Lines 126-140 of netfilter.c: the argument-concatenation loop.
Arguments are byte strings (`List Char`); `acc` plays the role of the
`filter` buffer contents, whose length is `flen`.  `none` models the
`exit(EXIT_FAILURE)` taken when `flen + slen + 1 >= MAXBUF`. -/
def concatArgsAux : List (List Char) → List Char → Option (List Char)
  | [], acc => some acc
  | a :: rest, acc =>
      if acc.length + a.length + 1 ≥ MAXBUF then none
      else concatArgsAux rest (acc ++ a ++ [' '])

/-- The filter string built by netfilter.c from the command-line
arguments after the program name (`none` = the process exited with
failure status inside the loop). -/
def mkFilter (args : List (List Char)) : Option (List Char) :=
  concatArgsAux args []

/-- Whether the startup path reaches the `DivertOpen` call at line 163:
it does exactly when the concatenation loop did not exit. -/
def opensDivertDevice (args : List (List Char)) : Bool :=
  (mkFilter args).isSome

/-- The arguments joined by exactly one space between consecutive
arguments, with nothing extra: the spec's wording of the filter string,
for comparison with `mkFilter`. -/
def spaceJoined : List (List Char) → List Char
  | [] => []
  | [a] => a
  | a :: b :: rest => a ++ [' '] ++ spaceJoined (b :: rest)

/-! Theorems. -/

theorem bswap16_bswap16 (n : Nat) : bswap16 (bswap16 n) = n % 65536 := by
  unfold bswap16
  have h1 : n % 65536 % 256 * 256 + n % 65536 / 256 < 65536 := by omega
  rw [Nat.mod_eq_of_lt h1]
  omega

theorem bswap32_decompose (a b c d : Nat) (ha : a < 256) (hb : b < 256)
    (hc : c < 256) (hd : d < 256) :
    bswap32 (a + b * 256 + c * 65536 + d * 16777216)
      = d + c * 256 + b * 65536 + a * 16777216 := by
  unfold bswap32
  omega

theorem bswap32_mod (n : Nat) : bswap32 (n % 4294967296) = bswap32 n := by
  unfold bswap32
  omega

theorem bswap32_bswap32 (n : Nat) : bswap32 (bswap32 n) = n % 4294967296 := by
  have key : ∀ m, m < 4294967296 → bswap32 (bswap32 m) = m := by
    intro m hm
    obtain ⟨a, b, c, d, ha, hb, hc, hd, rfl⟩ :
        ∃ a b c d, a < 256 ∧ b < 256 ∧ c < 256 ∧ d < 256 ∧
          m = a + b * 256 + c * 65536 + d * 16777216 :=
      ⟨m % 256, m / 256 % 256, m / 65536 % 256, m / 16777216,
        by omega, by omega, by omega, by omega, by omega⟩
    rw [bswap32_decompose a b c d ha hb hc hd,
      bswap32_decompose d c b a hd hc hb ha]
  calc bswap32 (bswap32 n) = bswap32 (bswap32 (n % 4294967296)) := by
        rw [bswap32_mod]
    _ = n % 4294967296 := key _ (Nat.mod_lt _ (by omega))

theorem ntohl_htonl (n : Nat) : ntohl (htonl n) = n % 4294967296 :=
  bswap32_bswap32 n

theorem ntohs_htons (n : Nat) : ntohs (htons n) = n % 65536 :=
  bswap16_bswap16 n

theorem ntohl_zero : ntohl 0 = 0 := by decide

/-- C1: for every intercepted packet carrying a TCP header, in both the
IPv4 and the IPv6 branch, the sent RST's sequence number (decoded to host
order) is the intercepted acknowledgment number when the intercepted ACK
flag is set and 0 otherwise, and its acknowledgment number is the
intercepted sequence number + 1 when the intercepted SYN flag is set and
the intercepted sequence number + payload length otherwise, in 32-bit
host arithmetic re-encoded to wire order. -/
theorem rst_seq_ack_derivation (o : ChecksumOracle) (reset : TCPPACKET)
    (resetv6 : TCPV6PACKET) (p : ClassifiedPacket) (ih : DIVERT_IPHDR)
    (ih6 : DIVERT_IPV6HDR) (th : DIVERT_TCPHDR) :
    (ntohl (finalizeReset o (synthResetV4 reset p ih th)).tcp.SeqNum
      = (if th.Ack then ntohl th.AckNum else 0))
    ∧ (ntohl (finalizeReset o (synthResetV4 reset p ih th)).tcp.AckNum
      = (if th.Syn then (ntohl th.SeqNum + 1) % 4294967296
         else (ntohl th.SeqNum + p.payload_len) % 4294967296))
    ∧ (ntohl (finalizeResetV6 o (synthResetV6 resetv6 p ih6 th)).tcp.SeqNum
      = (if th.Ack then ntohl th.AckNum else 0))
    ∧ (ntohl (finalizeResetV6 o (synthResetV6 resetv6 p ih6 th)).tcp.AckNum
      = (if th.Syn then (ntohl th.SeqNum + 1) % 4294967296
         else (ntohl th.SeqNum + p.payload_len) % 4294967296)) := by
  refine ⟨?_, ?_, ?_, ?_⟩ <;>
    simp only [finalizeReset, finalizeResetV6, synthResetV4, synthResetV6] <;>
    split <;>
    simp [ntohl_htonl, ntohl_zero]

/-- C5: for every classified packet with a TCP header and an IPv4 header,
and all address and port values, the sent RST's source address is the
original's destination address, its destination address the original's
source address, its source port the original's destination port, and its
destination port the original's source port. -/
theorem rst_v4_addr_port_symmetry (o : ChecksumOracle) (reset : TCPPACKET)
    (p : ClassifiedPacket) (ih : DIVERT_IPHDR) (th : DIVERT_TCPHDR) :
    ((finalizeReset o (synthResetV4 reset p ih th)).header.ip.SrcAddr
      = ih.DstAddr)
    ∧ ((finalizeReset o (synthResetV4 reset p ih th)).header.ip.DstAddr
      = ih.SrcAddr)
    ∧ ((finalizeReset o (synthResetV4 reset p ih th)).tcp.SrcPort
      = th.DstPort)
    ∧ ((finalizeReset o (synthResetV4 reset p ih th)).tcp.DstPort
      = th.SrcPort) := by
  refine ⟨?_, ?_, ?_, ?_⟩ <;> simp [finalizeReset, synthResetV4]

/-- C4: in both the IPv4 and the IPv6 branch of the UDP case, the sent
ICMP/ICMPv6 destination-unreachable response's direction is set
unconditionally to outbound, whatever the intercepted packet's direction
was. -/
theorem unreachable_direction_forced_outbound (o : ChecksumOracle)
    (dnr : ICMPPACKET) (dnrv6 : ICMPV6PACKET) (p : ClassifiedPacket)
    (ih : DIVERT_IPHDR) (ih6 : DIVERT_IPV6HDR) :
    ((finalizeDnr o (synthDnrV4 dnr p ih)).header.divert.Direction
      = DIVERT_PACKET_DIRECTION_OUTBOUND)
    ∧ ((finalizeDnrV6 o (synthDnrV6 dnrv6 p ih6)).header.divert.Direction
      = DIVERT_PACKET_DIRECTION_OUTBOUND) := by
  exact ⟨by simp [finalizeDnr, synthDnrV4], by simp [finalizeDnrV6, synthDnrV6]⟩

/-- With all checksum values 0: one concrete instance of the external
checksum finalizer, used by the closed counterexamples. -/
def zeroOracle : ChecksumOracle :=
  { resetIpChk := fun _ => 0, resetTcpChk := fun _ => 0
    resetv6TcpChk := fun _ => 0, dnrIpChk := fun _ => 0
    dnrIcmpChk := fun _ => 0, dnrv6Icmpv6Chk := fun _ => 0 }

/-- A concrete IPv4 header of an intercepted outbound UDP packet. -/
def sampleIpHdr : DIVERT_IPHDR :=
  { HdrLength := 5, Version := 4, TOS := 0, Length := htons 28, Id := 0
    FragOff0 := 0, TTL := 64, Protocol := 17, Checksum := 0
    SrcAddr := 0x0100007F, DstAddr := 0x0200007F }

/-- A concrete UDP header of an intercepted packet. -/
def sampleUdpHdr : DIVERT_UDPHDR :=
  { SrcPort := htons 1234, DstPort := htons 53, Length := htons 8
    Checksum := 0 }

/-- A concrete classified outbound UDP/IPv4 packet. -/
def sampleUdpPacketOutbound : ClassifiedPacket :=
  { IfIdx := 1, SubIfIdx := 0
    Direction := DIVERT_PACKET_DIRECTION_OUTBOUND
    ip := some sampleIpHdr, ipv6 := none, icmp := none, icmpv6 := none
    tcp := none, udp := some sampleUdpHdr, payload_len := 0
    ipBytes := List.replicate 28 0, ipv6Bytes := [] }

/-- C3 counterexample: for an intercepted outbound UDP/IPv4 packet, the
sent ICMP unreachable response's direction is NOT the logical inverse of
the intercepted packet's direction (the code forces it outbound). -/
theorem response_direction_cex :
    ¬ ((finalizeDnr zeroOracle
          (synthDnrV4 initTemplates.dnr sampleUdpPacketOutbound sampleIpHdr)
        ).header.divert.Direction
      = !sampleUdpPacketOutbound.Direction) := by
  decide

/-- C3 amended: the sent TCP RST's direction (IPv4 and IPv6 branch alike)
is the logical inverse of the intercepted packet's direction, while the
sent ICMP/ICMPv6 unreachable responses' direction is unconditionally
outbound, which coincides with the inverse only when the intercepted
packet was inbound. -/
theorem response_direction_amended (o : ChecksumOracle) (reset : TCPPACKET)
    (resetv6 : TCPV6PACKET) (dnr : ICMPPACKET) (dnrv6 : ICMPV6PACKET)
    (p : ClassifiedPacket) (ih : DIVERT_IPHDR) (ih6 : DIVERT_IPV6HDR)
    (th : DIVERT_TCPHDR) :
    ((finalizeReset o (synthResetV4 reset p ih th)).header.divert.Direction
      = !p.Direction)
    ∧ ((finalizeResetV6 o
          (synthResetV6 resetv6 p ih6 th)).header.divert.Direction
      = !p.Direction)
    ∧ ((finalizeDnr o (synthDnrV4 dnr p ih)).header.divert.Direction
      = DIVERT_PACKET_DIRECTION_OUTBOUND)
    ∧ ((finalizeDnrV6 o (synthDnrV6 dnrv6 p ih6)).header.divert.Direction
      = DIVERT_PACKET_DIRECTION_OUTBOUND) := by
  refine ⟨?_, ?_, ?_, ?_⟩ <;>
    simp [finalizeReset, finalizeResetV6, finalizeDnr, finalizeDnrV6,
      synthResetV4, synthResetV6, synthDnrV4, synthDnrV6]

/-- Number of bytes that follow the diversion envelope in the sent ICMP
unreachable buffer (the actual IPv4 packet content of that response). -/
def dnrBytesAfterEnvelope (ip_header : DIVERT_IPHDR) : Nat :=
  dnrSentLength ip_header - sizeofDIVERT_PACKET

/-- Number of bytes that follow the IPv6 header in the sent ICMPv6
unreachable buffer (the actual IPv6 payload of that response). -/
def dnrv6BytesAfterIpv6Header : Nat :=
  dnrv6SentLength - sizeofDIVERT_PACKET - sizeofDIVERT_IPV6HDR

/-- A concrete IPv6 header of an intercepted UDP packet. -/
def sampleIpv6Hdr : DIVERT_IPV6HDR :=
  { TrafficClass0 := 0, Version := 6, FlowLabel := 0, Length := htons 12
    NextHdr := 17, HopLimit := 64, SrcAddr := 1, DstAddr := 2 }

/-- A concrete classified inbound UDP/IPv6 packet. -/
def sampleUdpPacketV6 : ClassifiedPacket :=
  { IfIdx := 1, SubIfIdx := 0, Direction := true
    ip := none, ipv6 := some sampleIpv6Hdr, icmp := none, icmpv6 := none
    tcp := none, udp := some sampleUdpHdr, payload_len := 4
    ipBytes := [], ipv6Bytes := List.replicate 60 0 }

/-- C2 counterexample: for a concrete intercepted UDP/IPv6 packet, the
sent ICMPv6 unreachable response's IPv6 payload-length field (decoded to
host order) does not equal the number of bytes that actually follow the
IPv6 header in the sent buffer: the value written at line 154 counts 4
bytes with no counterpart in the buffer layout. -/
theorem icmpv6_length_field_cex :
    ¬ (ntohs (finalizeDnrV6 zeroOracle
          (synthDnrV6 initTemplates.dnrv6 sampleUdpPacketV6 sampleIpv6Hdr)
        ).header.ipv6.Length
      = dnrv6BytesAfterIpv6Header) := by
  decide

/-- C2 amended (corrected): the IPv4 responses' total-length fields match
the bytes actually sent after the envelope -- recomputed per packet for
the ICMP unreachable response and different from the template's zero
build-time default, while for the RST it is the build-time constant,
which equals that response's fixed content; the IPv6 RST's payload-length
field likewise matches the bytes following the IPv6 header; but the
ICMPv6 unreachable response's payload-length field exceeds the bytes
actually following the IPv6 header in the sent buffer by exactly 4. -/
theorem response_length_fields (o : ChecksumOracle) (dnr : ICMPPACKET)
    (p : ClassifiedPacket) (ih : DIVERT_IPHDR) (ih6 : DIVERT_IPV6HDR)
    (th : DIVERT_TCPHDR) (h : ih.HdrLength ≤ 15) :
    (ntohs (finalizeDnr o (synthDnrV4 dnr p ih)).header.ip.Length
      = dnrBytesAfterEnvelope ih)
    ∧ dnrBytesAfterEnvelope ih ≠ ntohs PacketIpIcmpInit.header.ip.Length
    ∧ (ntohs (finalizeReset o
          (synthResetV4 initTemplates.reset p ih th)).header.ip.Length
      = sizeofTCPPACKET - sizeofDIVERT_PACKET)
    ∧ (ntohs (finalizeResetV6 o
          (synthResetV6 initTemplates.resetv6 p ih6 th)).header.ipv6.Length
      = sizeofTCPV6PACKET - sizeofDIVERT_PACKET - sizeofDIVERT_IPV6HDR)
    ∧ (ntohs (finalizeDnrV6 o
          (synthDnrV6 initTemplates.dnrv6 p ih6)).header.ipv6.Length
      = dnrv6BytesAfterIpv6Header + 4) := by
  refine ⟨?_, ?_, ?_, ?_, ?_⟩
  · have hlt : dnrBytesAfterEnvelope ih < 65536 := by
      unfold dnrBytesAfterEnvelope dnrSentLength icmpEmbedLength
        sizeofICMPPACKET sizeofDIVERT_PACKET sizeofDIVERT_IPHDR
        sizeofDIVERT_ICMPHDR
      omega
    simp only [finalizeDnr, synthDnrV4]
    rw [show htons (dnrSentLength ih - sizeofDIVERT_PACKET)
        = htons (dnrBytesAfterEnvelope ih) from rfl]
    rw [ntohs_htons, Nat.mod_eq_of_lt hlt]
  · unfold dnrBytesAfterEnvelope dnrSentLength icmpEmbedLength
      sizeofICMPPACKET sizeofDIVERT_PACKET sizeofDIVERT_IPHDR
      sizeofDIVERT_ICMPHDR PacketIpIcmpInit PacketIpInit zeroDIVERT_IPHDR
    simp only [ntohs, bswap16]
    omega
  · simp only [finalizeReset, synthResetV4, initTemplates, PacketIpTcpInit,
      PacketIpInit]
    decide
  · simp only [finalizeResetV6, synthResetV6, initTemplates,
      PacketIpv6TcpInit, PacketIpv6Init]
    decide
  · simp only [finalizeDnrV6, synthDnrV6, initTemplates,
      PacketIpv6Icmpv6Init, PacketIpv6Init]
    decide

/-- A concrete TCP header of an intercepted packet. -/
def sampleTcpHdr : DIVERT_TCPHDR :=
  { SrcPort := htons 43210, DstPort := htons 80, SeqNum := htonl 1000
    AckNum := 0, Reserved1 := 0, HdrLength := 5, Fin := false, Syn := true
    Rst := false, Psh := false, Ack := false, Urg := false, Reserved2 := 0
    Window := htons 8192, Checksum := 0, UrgPtr := 0 }

/-- C2 witness: the amended length-field statement instantiated at a
concrete packet. -/
theorem response_length_fields_witness :
    sampleIpHdr.HdrLength ≤ 15
    ∧ ((ntohs (finalizeDnr zeroOracle
          (synthDnrV4 initTemplates.dnr sampleUdpPacketOutbound
            sampleIpHdr)).header.ip.Length
      = dnrBytesAfterEnvelope sampleIpHdr)
    ∧ dnrBytesAfterEnvelope sampleIpHdr
        ≠ ntohs PacketIpIcmpInit.header.ip.Length
    ∧ (ntohs (finalizeReset zeroOracle
          (synthResetV4 initTemplates.reset sampleUdpPacketOutbound
            sampleIpHdr sampleTcpHdr)).header.ip.Length
      = sizeofTCPPACKET - sizeofDIVERT_PACKET)
    ∧ (ntohs (finalizeResetV6 zeroOracle
          (synthResetV6 initTemplates.resetv6 sampleUdpPacketOutbound
            sampleIpv6Hdr sampleTcpHdr)).header.ipv6.Length
      = sizeofTCPV6PACKET - sizeofDIVERT_PACKET - sizeofDIVERT_IPV6HDR)
    ∧ (ntohs (finalizeDnrV6 zeroOracle
          (synthDnrV6 initTemplates.dnrv6 sampleUdpPacketOutbound
            sampleIpv6Hdr)).header.ipv6.Length
      = dnrv6BytesAfterIpv6Header + 4)) :=
  ⟨by decide,
    response_length_fields zeroOracle initTemplates.dnr
      sampleUdpPacketOutbound sampleIpHdr sampleIpv6Hdr sampleTcpHdr
      (by decide)⟩

/-- C6: for every intercepted UDP/IPv4 packet whose buffer holds at least
(header-length words × 4) + 8 bytes from the IPv4 header on, the region
copied into the sent ICMP unreachable response is exactly the first
(header-length words × 4) + 8 bytes starting at the original IPv4 header
(28 bytes when the word count is 5), and the response's ICMP type is 3
and its code 3. -/
theorem dnr_embedded_region (o : ChecksumOracle) (p : ClassifiedPacket)
    (ih : DIVERT_IPHDR)
    (h : ih.HdrLength * 4 + 8 ≤ p.ipBytes.length) :
    ((finalizeDnr o (synthDnrV4 initTemplates.dnr p ih)).data
      = p.ipBytes.take (ih.HdrLength * 4 + 8))
    ∧ ((finalizeDnr o (synthDnrV4 initTemplates.dnr p ih)).data.length
      = ih.HdrLength * 4 + 8)
    ∧ (finalizeDnr o (synthDnrV4 initTemplates.dnr p ih)).icmp.«Type» = 3
    ∧ (finalizeDnr o (synthDnrV4 initTemplates.dnr p ih)).icmp.Code = 3 := by
  refine ⟨?_, ?_, ?_, ?_⟩ <;>
    simp [finalizeDnr, synthDnrV4, initTemplates, PacketIpIcmpInit,
      icmpEmbedLength, List.length_take, h]

/-- C6 witness: the embedded-region statement instantiated at a concrete
UDP/IPv4 packet with a 5-word header and a 28-byte buffer view. -/
theorem dnr_embedded_region_witness :
    sampleIpHdr.HdrLength * 4 + 8 ≤ sampleUdpPacketOutbound.ipBytes.length
    ∧ (((finalizeDnr zeroOracle
          (synthDnrV4 initTemplates.dnr sampleUdpPacketOutbound
            sampleIpHdr)).data
      = sampleUdpPacketOutbound.ipBytes.take
          (sampleIpHdr.HdrLength * 4 + 8))
    ∧ ((finalizeDnr zeroOracle
          (synthDnrV4 initTemplates.dnr sampleUdpPacketOutbound
            sampleIpHdr)).data.length
      = sampleIpHdr.HdrLength * 4 + 8)
    ∧ (finalizeDnr zeroOracle
        (synthDnrV4 initTemplates.dnr sampleUdpPacketOutbound
          sampleIpHdr)).icmp.«Type» = 3
    ∧ (finalizeDnr zeroOracle
        (synthDnrV4 initTemplates.dnr sampleUdpPacketOutbound
          sampleIpHdr)).icmp.Code = 3) :=
  ⟨by decide,
    dnr_embedded_region zeroOracle sampleUdpPacketOutbound sampleIpHdr
      (by decide)⟩

/-- C10: since the IPv4 header-length word count is a 4-bit field (at
most 15), the length of the region copied into the `dnr0` trailing data
area never exceeds that area's capacity of 15×4 + 8 + 1 bytes, so the
copy stays within the template buffer's bounds. -/
theorem dnr_copy_within_capacity (o : ChecksumOracle) (dnr : ICMPPACKET)
    (p : ClassifiedPacket) (ih : DIVERT_IPHDR) (h : ih.HdrLength ≤ 15) :
    icmpEmbedLength ih ≤ dnrDataCapacity
    ∧ (finalizeDnr o (synthDnrV4 dnr p ih)).data.length
        ≤ dnrDataCapacity := by
  constructor
  · unfold icmpEmbedLength dnrDataCapacity
    omega
  · simp only [finalizeDnr, synthDnrV4, List.length_take]
    unfold icmpEmbedLength dnrDataCapacity
    omega

/-- C10 witness: the capacity bound instantiated at a concrete packet
with a 5-word IPv4 header. -/
theorem dnr_copy_within_capacity_witness :
    sampleIpHdr.HdrLength ≤ 15
    ∧ (icmpEmbedLength sampleIpHdr ≤ dnrDataCapacity
    ∧ (finalizeDnr zeroOracle
        (synthDnrV4 initTemplates.dnr sampleUdpPacketOutbound
          sampleIpHdr)).data.length ≤ dnrDataCapacity) :=
  ⟨by decide,
    dnr_copy_within_capacity zeroOracle initTemplates.dnr
      sampleUdpPacketOutbound sampleIpHdr (by decide)⟩

/-- The protocol-invariant template fields fixed at construction time:
IPv4 version, header length, TTL, identifier and protocol; IPv6 version,
hop limit and next header; TCP header length and the RST/ACK flags of the
reset templates; ICMP type/code and ICMPv6 type/code of the unreachable
templates. -/
def templateInvariants (t : Templates) : Prop :=
  t.reset.header.ip.Version = 4 ∧ t.reset.header.ip.HdrLength = 5
  ∧ t.reset.header.ip.TTL = 64 ∧ t.reset.header.ip.Id = ntohs 0xDEAD
  ∧ t.reset.header.ip.Protocol = IPPROTO_TCP
  ∧ t.reset.tcp.HdrLength = 5
  ∧ t.reset.tcp.Rst = true ∧ t.reset.tcp.Ack = true
  ∧ t.dnr.header.ip.Version = 4 ∧ t.dnr.header.ip.HdrLength = 5
  ∧ t.dnr.header.ip.TTL = 64 ∧ t.dnr.header.ip.Id = ntohs 0xDEAD
  ∧ t.dnr.header.ip.Protocol = IPPROTO_ICMP
  ∧ t.dnr.icmp.«Type» = 3 ∧ t.dnr.icmp.Code = 3
  ∧ t.resetv6.header.ipv6.Version = 6
  ∧ t.resetv6.header.ipv6.HopLimit = 64
  ∧ t.resetv6.header.ipv6.NextHdr = IPPROTO_TCP
  ∧ t.resetv6.tcp.HdrLength = 5
  ∧ t.resetv6.tcp.Rst = true ∧ t.resetv6.tcp.Ack = true
  ∧ t.dnrv6.header.ipv6.Version = 6
  ∧ t.dnrv6.header.ipv6.HopLimit = 64
  ∧ t.dnrv6.header.ipv6.NextHdr = IPPROTO_ICMPV6
  ∧ t.dnrv6.icmpv6.«Type» = 1 ∧ t.dnrv6.icmpv6.Code = 4

theorem initTemplates_invariants : templateInvariants initTemplates := by
  unfold templateInvariants
  decide

theorem processPacket_invariants (o : ChecksumOracle) (t : Templates)
    (p : ClassifiedPacket) (h : templateInvariants t) :
    templateInvariants (processPacket o t p) := by
  obtain ⟨A, B, C, ip, ipv6, icmp, icmpv6, tcp, udp, pl, ib, ib6⟩ := p
  unfold processPacket
  rcases tcp with _ | th <;> rcases udp with _ | uh <;>
    rcases ip with _ | ih <;> rcases ipv6 with _ | ih6 <;>
    simp_all [templateInvariants, finalizeReset, finalizeResetV6,
      finalizeDnr, finalizeDnrV6, synthResetV4, synthResetV6, synthDnrV4,
      synthDnrV6]

theorem foldl_processPacket_invariants (o : ChecksumOracle) :
    ∀ (ps : List ClassifiedPacket) (t : Templates),
      templateInvariants t →
      templateInvariants (ps.foldl (processPacket o) t) := by
  intro ps
  induction ps with
  | nil => intro t h; exact h
  | cons p rest ih =>
    intro t h
    exact ih (processPacket o t p) (processPacket_invariants o t p h)

/-- C7: after the main loop processes any sequence of intercepted
packets, starting from the freshly built templates, every template still
carries its construction-time protocol-invariant fields: IPv4 version 4,
header length 5 words, TTL 64, the fixed identifier and protocol; IPv6
version 6, hop limit 64, next header; TCP header length 5 words and
RST = ACK = 1 on the reset templates; ICMP type 3 / code 3 and ICMPv6
type 1 / code 4 on the unreachable templates. -/
theorem template_invariants_preserved (o : ChecksumOracle)
    (ps : List ClassifiedPacket) :
    templateInvariants (processPackets o ps) :=
  foldl_processPacket_invariants o ps initTemplates initTemplates_invariants

/-- Sum over the arguments of (length + 1): the filter buffer length
`flen` after the concatenation loop has consumed all arguments. -/
def argsFilterLen (args : List (List Char)) : Nat :=
  (args.map (fun a => a.length + 1)).sum

theorem concatArgsAux_some_length :
    ∀ (args : List (List Char)) (acc s : List Char),
      concatArgsAux args acc = some s →
      s.length = acc.length + argsFilterLen args
        ∧ (args = [] ∨ s.length < MAXBUF) := by
  intro args
  induction args with
  | nil =>
    intro acc s h
    simp only [concatArgsAux, Option.some.injEq] at h
    subst h
    simp [argsFilterLen]
  | cons a rest ih =>
    intro acc s h
    simp only [concatArgsAux] at h
    split at h
    · exact absurd h (by simp)
    · rename_i hlt
      obtain ⟨h1, h2⟩ := ih _ _ h
      have hlen : s.length = acc.length + argsFilterLen (a :: rest) := by
        simp [argsFilterLen] at h1 ⊢
        omega
      refine ⟨hlen, Or.inr ?_⟩
      rcases h2 with h2 | h2
      · subst h2
        simp only [concatArgsAux, Option.some.injEq] at h
        subst h
        simp only [List.length_append, List.length_cons, List.length_nil]
        omega
      · exact h2

theorem concatArgsAux_some_eq :
    ∀ (args : List (List Char)) (acc s : List Char),
      concatArgsAux args acc = some s →
      s = acc ++ (args.map (fun a => a ++ [' '])).flatten := by
  intro args
  induction args with
  | nil =>
    intro acc s h
    simp only [concatArgsAux, Option.some.injEq] at h
    subst h
    simp
  | cons a rest ih =>
    intro acc s h
    simp only [concatArgsAux] at h
    split at h
    · exact absurd h (by simp)
    · have := ih _ _ h
      subst this
      simp

theorem spaceJoined_length :
    ∀ args : List (List Char), args ≠ [] →
      (spaceJoined args).length + 1 = argsFilterLen args := by
  intro args
  induction args with
  | nil => intro h; exact absurd rfl h
  | cons a rest ih =>
    intro _
    cases rest with
    | nil => simp [spaceJoined, argsFilterLen]
    | cons b r =>
      have hr := ih (by simp)
      simp only [spaceJoined, argsFilterLen, List.map_cons, List.sum_cons,
        List.length_append, List.length_cons, List.length_nil] at hr ⊢
      omega

/-- C8: whenever the command-line arguments after the program name,
joined by single spaces, exceed the MAXBUF bound of the internal filter
buffer, the concatenation loop exits the process with failure status and
the DivertOpen call at line 163 is never reached. -/
theorem filter_too_long_exits (args : List (List Char))
    (h : MAXBUF < (spaceJoined args).length) :
    mkFilter args = none ∧ opensDivertDevice args = false := by
  have hne : args ≠ [] := by
    intro he
    subst he
    simp [spaceJoined] at h
  have hlen := spaceJoined_length args hne
  have hnone : mkFilter args = none := by
    cases hm : mkFilter args with
    | none => rfl
    | some s =>
      obtain ⟨h1, h2⟩ := concatArgsAux_some_length args [] s hm
      rcases h2 with h2 | h2
      · exact absurd h2 hne
      · simp only [List.length_nil, Nat.zero_add] at h1
        omega
  exact ⟨hnone, by simp [opensDivertDevice, hnone]⟩

/-- C8 witness: a single 3000-byte argument exceeds the buffer bound;
the loop exits and the device is not opened. -/
theorem filter_too_long_exits_witness :
    MAXBUF < (spaceJoined [List.replicate 3000 'a']).length
    ∧ (mkFilter [List.replicate 3000 'a'] = none
        ∧ opensDivertDevice [List.replicate 3000 'a'] = false) := by
  have h : MAXBUF < (spaceJoined [List.replicate 3000 'a']).length := by
    rw [show spaceJoined [List.replicate 3000 'a'] = List.replicate 3000 'a'
      from rfl]
    rw [List.length_replicate]
    norm_num [MAXBUF]
  exact ⟨h, filter_too_long_exits [List.replicate 3000 'a'] h⟩

/-- C9 counterexample: for the two arguments "a" and "b", the filter
string actually built is not the plain single-space join (it carries a
trailing space). -/
theorem filter_concat_cex :
    mkFilter [['a'], ['b']] ≠ some (spaceJoined [['a'], ['b']]) := by
  decide

/-- Each argument followed by exactly one space, concatenated: the
string the concatenation loop actually builds. -/
def trailingJoin (args : List (List Char)) : List Char :=
  (args.map (fun a => a ++ [' '])).flatten

/-- C9 amended (corrected): for every argument list that fits in the
internal buffer, the filter string handed to DivertOpen is each argument
followed by exactly one space, concatenated -- the arguments joined by
single spaces plus one trailing space (empty when there are no
arguments). -/
theorem filter_concat_amended (args : List (List Char)) (s : List Char)
    (h : mkFilter args = some s) : s = trailingJoin args := by
  have := concatArgsAux_some_eq args [] s h
  simpa [trailingJoin] using this

/-- C9 witness: the amended concatenation statement at the concrete
arguments "a" and "b". -/
theorem filter_concat_amended_witness :
    mkFilter [['a'], ['b']] = some ['a', ' ', 'b', ' ']
    ∧ ['a', ' ', 'b', ' '] = trailingJoin [['a'], ['b']] :=
  ⟨by decide, filter_concat_amended [['a'], ['b']] _ (by decide)⟩

end Netfilter
